import Mathlib

/-!
Shallow embedding of the client-side search widget from
`themes/velocity/assets/js/search.js`.

Strings are modelled as `List Char`; JavaScript `toLowerCase` is modelled
by `Char.toLower` (ASCII case mapping, sufficient for the corpus and for
every claim below); a possibly `null`/`undefined` field is modelled as
`Option`; JavaScript string falsiness (`!s` true for `null`, `undefined`
and `""`) is modelled explicitly at each use site.
-/

namespace VD

/-- Lowercase a string characterwise, modelling JavaScript `String.prototype.toLowerCase`. -/
def lower (s : List Char) : List Char := s.map Char.toLower

/-- First index at which `needle` occurs as a contiguous substring of the
haystack, modelling JavaScript `String.prototype.indexOf` (with `none` for
`-1`). `indexOfSub [] h = some 0`, as in JavaScript where `h.indexOf("") = 0`. -/
def indexOfSub (needle : List Char) : List Char → Option Nat
  | [] => if needle.isEmpty then some 0 else none
  | c :: rest =>
    if needle.isPrefixOf (c :: rest) then some 0
    else (indexOfSub needle rest).map (· + 1)

/-- JavaScript `hay.includes(needle)`, i.e. `hay.indexOf(needle) !== -1`. -/
def jsIncludes (hay needle : List Char) : Bool := (indexOfSub needle hay).isSome

/-- The ECMAScript WhiteSpace / LineTerminator characters stripped by
`String.prototype.trim`. -/
def isJsWhitespace (c : Char) : Bool :=
  c.toNat = 0x9 || c.toNat = 0xA || c.toNat = 0xB || c.toNat = 0xC ||
  c.toNat = 0xD || c.toNat = 0x20 || c.toNat = 0xA0 || c.toNat = 0x1680 ||
  (0x2000 ≤ c.toNat && c.toNat ≤ 0x200A) ||
  c.toNat = 0x2028 || c.toNat = 0x2029 || c.toNat = 0x202F ||
  c.toNat = 0x205F || c.toNat = 0x3000 || c.toNat = 0xFEFF

/-- JavaScript `String.prototype.trim`: strip leading and trailing whitespace. -/
def jsTrim (s : List Char) : List Char :=
  ((s.dropWhile isJsWhitespace).reverse.dropWhile isJsWhitespace).reverse

/-- A document of the search index (`/index.json` entry):
`{ title, content, permalink }`. `content` is `none` when the field is
`null`/`undefined`/missing. -/
structure SearchDoc where
  title : List Char
  content : Option (List Char)
  permalink : List Char
deriving DecidableEq

/-- The filter predicate of `searchIndex.search` (search.js lines 55-60),
applied to the already-lowercased query `q`:

  item.title.toLowerCase().includes(q) ||
    (item.content && item.content.toLowerCase().includes(q))

The conjunct `item.content &&` short-circuits on a falsy field, i.e. on
`null`/`undefined` (`none`) or on the empty string. -/
def matchPred (q : List Char) (item : SearchDoc) : Bool :=
  jsIncludes (lower item.title) q ||
    (match item.content with
     | none => false
     | some c => !c.isEmpty && jsIncludes (lower c) q)

/-- Model of `searchIndex.search(query)` (search.js lines 54-62): lowercase the query,
filter the index by `matchPred`, keep the first 10 results (`slice(0, 10)`). -/
def search (query : List Char) (searchData : List SearchDoc) : List SearchDoc :=
  (searchData.filter (matchPred (lower query))).take 10

/-- Spec-side predicate: the document's title or content contains the query
case-insensitively (a `none` content contains nothing). -/
def specMatch (q : List Char) (item : SearchDoc) : Bool :=
  jsIncludes (lower item.title) (lower q) ||
    (match item.content with
     | none => false
     | some c => jsIncludes (lower c) (lower q))

/-- Model of `performSearch(query)` (search.js lines 69-77), returning the list handed
to `renderResults`: empty when the index is not loaded (`!searchIndex`) or the
trimmed query is empty (`!query.trim()`), else `searchIndex.search(query)`. -/
def performSearch (searchIndex : Option (List SearchDoc)) (query : List Char) :
    List SearchDoc :=
  match searchIndex with
  | none => []
  | some dat => if (jsTrim query).isEmpty then [] else search query dat

/-- The three-character ellipsis string `"..."` used by `getSnippet`. -/
def ellipsis : List Char := ['.', '.', '.']

/-- The opening highlight marker `"<mark>"`. -/
def markOpen : List Char := ['<', 'm', 'a', 'r', 'k', '>']

/-- The closing highlight marker `"</mark>"`. -/
def markClose : List Char := ['<', '/', 'm', 'a', 'r', 'k', '>']

/-- One pattern character of the regex `new RegExp(query, 'gi')` against one
subject character: `.` is a wildcard matching anything but a LineTerminator;
any other character matches itself case-insensitively (flag `i`). This models
the fragment of ECMAScript regex syntax in which every pattern character is an
atom, which is exactly how the unescaped query string is interpreted when it
contains no metacharacter other than `.`. -/
def tokenMatches (p c : Char) : Bool :=
  if p = '.' then
    !(c.toNat = 0xA || c.toNat = 0xD || c.toNat = 0x2028 || c.toNat = 0x2029)
  else p.toLower = c.toLower

/-- Does the pattern match a prefix of the subject (each pattern character
consuming exactly one subject character)? -/
def patMatchAt : List Char → List Char → Bool
  | [], _ => true
  | _ :: _, [] => false
  | p :: ps, c :: cs => tokenMatches p c && patMatchAt ps cs

/-- Global replace loop of `snippet.replace(regex, '<mark>$1</mark>')`:
scan left to right; at a match, wrap the matched text (capture `$1`, taken
from the subject with its original case) in markers and resume after it;
otherwise advance one character. `fuel` is initialised to the subject length,
which bounds the number of iterations since every iteration consumes at least
one subject character. -/
def hlLoop (pat : List Char) : Nat → List Char → List Char
  | _, [] => []
  | 0, s => s
  | fuel + 1, c :: cs =>
    if !pat.isEmpty && patMatchAt pat (c :: cs) then
      markOpen ++ (c :: cs).take pat.length ++ markClose ++
        hlLoop pat fuel ((c :: cs).drop pat.length)
    else c :: hlLoop pat fuel cs

/-- search.js lines 96-98: build `new RegExp('(' + query + ')', 'gi')` from the
raw, unescaped query and replace every match in the snippet with
`<mark>$1</mark>`. The enclosing parentheses only form the capture group. -/
def highlight (query : List Char) (s : List Char) : List Char :=
  hlLoop query s.length s

/-- Model of `getSnippet(content, query, maxLength = 120)` (search.js lines 79-101).
`content` is `none` for a `null`/`undefined` field; the guard
`if (!content || !query) return ''` also fires on empty strings. The
occurrence search is on lowercased copies; slicing is on the original. -/
def getSnippet (content : Option (List Char)) (query : List Char)
    (maxLength : Nat := 120) : List Char :=
  match content with
  | none => []
  | some c =>
    if c.isEmpty || query.isEmpty then []
    else
      match indexOfSub (lower query) (lower c) with
      | none => c.take maxLength ++ ellipsis
      | some i =>
        let start := i - 40
        let stop := min c.length (i + query.length + 80)
        let snip := (c.drop start).take (stop - start)
        let snip := if 0 < start then ellipsis ++ snip else snip
        let snip := if stop < c.length then snip ++ ellipsis else snip
        highlight query snip

/-- The two arrow-key directions of `navigateResults(direction)`; the source
tests `direction === 'down'` and treats everything else as up. -/
inductive NavDirection where
  | down
  | up
deriving DecidableEq

/-- Model of `navigateResults(direction)` (search.js lines 126-140), as a function of
the current `selectedIndex` and the number of rendered results: no-op when
there are no results (`if (!resultElements?.length) return`); down is
`(selectedIndex + 1) % resultElements.length` (JavaScript `%` is the truncated
remainder, `Int.tmod`); up wraps to the last index from `selectedIndex <= 0`.
`selectedIndex` is an integer because `-1` denotes no selection. -/
def navigateResults (selectedIndex : Int) (resultCount : Nat)
    (dir : NavDirection) : Int :=
  if resultCount = 0 then selectedIndex
  else
    match dir with
    | .down => Int.tmod (selectedIndex + 1) (resultCount : Int)
    | .up => if selectedIndex ≤ 0 then (resultCount : Int) - 1
             else selectedIndex - 1

/-- The module-scoped mutable state of the widget closure: the modal open
flag, the input value, `selectedIndex`, the currently rendered result list,
the memoized index (`searchIndex`/`searchData`, `none` until a fetch
succeeds), plus instrumentation for the network: the number of `fetch` calls
issued and the number still unresolved. -/
structure WidgetState where
  modalOpen : Bool
  inputValue : List Char
  selectedIndex : Int
  rendered : List SearchDoc
  searchIndex : Option (List SearchDoc)
  pendingFetches : Nat
  fetchCount : Nat
deriving DecidableEq

/-- The initial state on page load. -/
def initWidget : WidgetState :=
  { modalOpen := false, inputValue := [], selectedIndex := -1, rendered := [],
    searchIndex := none, pendingFetches := 0, fetchCount := 0 }

/-- The externally triggered events of the widget. `openModal` is
`openSearch()` (which synchronously calls `loadSearchIndex()`); `fetchOk` and
`fetchErr` are the two ways an outstanding `fetch('/index.json')` resolves;
the other events are the DOM listeners. -/
inductive WEvent where
  | openModal
  | closeModal
  | inputChange (v : List Char)
  | arrow (d : NavDirection)
  | fetchOk (dat : List SearchDoc)
  | fetchErr
deriving DecidableEq

/-- One step of the widget.
* `openModal` (search.js lines 26-32): open the modal and run the synchronous
  part of `loadSearchIndex()` (lines 46-66): `if (searchIndex) return;`
  otherwise a `fetch` is issued.
* `closeModal` (lines 36-43): close, clear the input, reset `selectedIndex`
  to `-1`, render the empty list.
* `inputChange v` (lines 160-163): set the value, reset `selectedIndex` to
  `-1`, render `performSearch(v)`.
* `arrow d`: `navigateResults(d)` over the rendered result elements.
* `fetchOk dat`: an outstanding fetch resolves and its JSON parses; the
  closure sets `searchData` and builds `searchIndex` (lines 50-62).
* `fetchErr`: the fetch or parse fails; the `catch` (lines 63-65) logs and
  leaves `searchIndex` untouched, so the async function still resolves. -/
def stepWidget (s : WidgetState) : WEvent → WidgetState
  | .openModal =>
    if s.searchIndex.isSome then { s with modalOpen := true }
    else { s with modalOpen := true,
                  pendingFetches := s.pendingFetches + 1,
                  fetchCount := s.fetchCount + 1 }
  | .closeModal =>
    { s with modalOpen := false, inputValue := [], selectedIndex := -1,
             rendered := [] }
  | .inputChange v =>
    { s with inputValue := v, selectedIndex := -1,
             rendered := performSearch s.searchIndex v }
  | .arrow d =>
    { s with selectedIndex :=
        navigateResults s.selectedIndex s.rendered.length d }
  | .fetchOk dat =>
    if s.pendingFetches = 0 then s
    else { s with pendingFetches := s.pendingFetches - 1,
                  searchIndex := some dat }
  | .fetchErr =>
    if s.pendingFetches = 0 then s
    else { s with pendingFetches := s.pendingFetches - 1 }

/-- Run a sequence of events from a state. -/
def runWidget (s : WidgetState) : List WEvent → WidgetState
  | [] => s
  | e :: es => runWidget (stepWidget s e) es

/-- The selection invariant: `-1 ≤ selectedIndex < results.length`. -/
def selInv (s : WidgetState) : Prop :=
  -1 ≤ s.selectedIndex ∧ s.selectedIndex < (s.rendered.length : Int)

instance (s : WidgetState) : Decidable (selInv s) := by
  unfold selInv; infer_instance

/-- A 500-character content string with a single `b` at offset 200, realising
the scenario of a query found at offset 200 in content of length 500. -/
def c500 : List Char := List.replicate 200 'a' ++ 'b' :: List.replicate 299 'a'

theorem indexOfSub_nil (h : List Char) : indexOfSub [] h = some 0 := by
  cases h <;> simp [indexOfSub, List.isPrefixOf]

theorem jsIncludes_empty_needle (h : List Char) : jsIncludes h [] = true := by
  simp [jsIncludes, indexOfSub_nil]

theorem matchPred_lower_eq_specMatch (q : List Char) (d : SearchDoc) :
    matchPred (lower q) d = specMatch q d := by
  unfold matchPred specMatch
  cases d.content with
  | none => rfl
  | some c =>
    cases c with
    | nil =>
      cases q with
      | nil => simp [jsIncludes_empty_needle, lower]
      | cons a as => simp [jsIncludes, indexOfSub, lower]
    | cons b bs => simp

theorem navigateResults_bounds (si : Int) (n : Nat) (d : NavDirection)
    (h1 : -1 ≤ si) (h2 : si < (n : Int)) :
    -1 ≤ navigateResults si n d ∧ navigateResults si n d < (n : Int) := by
  by_cases hn : n = 0
  · subst hn
    simp only [navigateResults, if_pos]
    exact ⟨h1, h2⟩
  · have hn' : (0 : Int) < (n : Int) := by
      exact_mod_cast Nat.pos_of_ne_zero hn
    cases d with
    | down =>
      have e1 : navigateResults si n .down = Int.tmod (si + 1) (n : Int) := by
        simp [navigateResults, hn]
      rw [e1, Int.tmod_eq_emod (by omega) (by omega)]
      have hnn := Int.emod_nonneg (si + 1) (by omega : (n : Int) ≠ 0)
      have hlt := Int.emod_lt_of_pos (si + 1) hn'
      exact ⟨by omega, hlt⟩
    | up =>
      have e1 : navigateResults si n .up =
          if si ≤ 0 then (n : Int) - 1 else si - 1 := by
        simp [navigateResults, hn]
      rw [e1]
      split <;> exact ⟨by omega, by omega⟩

theorem stepWidget_selInv (s : WidgetState) (e : WEvent) (h : selInv s) :
    selInv (stepWidget s e) := by
  obtain ⟨h1, h2⟩ := h
  cases e with
  | openModal =>
    simp only [stepWidget]
    split <;> exact ⟨h1, h2⟩
  | closeModal =>
    simp only [stepWidget]
    exact ⟨le_refl _, by norm_num⟩
  | inputChange v =>
    simp only [stepWidget]
    refine ⟨by norm_num, ?_⟩
    show (-1 : Int) < ((performSearch s.searchIndex v).length : Int)
    have := Int.natCast_nonneg (performSearch s.searchIndex v).length
    omega
  | arrow d =>
    simp only [stepWidget]
    exact navigateResults_bounds s.selectedIndex s.rendered.length d h1 h2
  | fetchOk dat =>
    simp only [stepWidget]
    split <;> exact ⟨h1, h2⟩
  | fetchErr =>
    simp only [stepWidget]
    split <;> exact ⟨h1, h2⟩

theorem runWidget_selInv (es : List WEvent) (s : WidgetState) (h : selInv s) :
    selInv (runWidget s es) := by
  induction es generalizing s with
  | nil => exact h
  | cons e es ih => exact ih (stepWidget s e) (stepWidget_selInv s e h)

/-- C2: `search q I` returns exactly the documents of `I` whose title or
content contains `q` case-insensitively, in index order, truncated to the
first 10; in particular its length is at most 10. -/
theorem search_spec (q : List Char) (I : List SearchDoc) :
    search q I = (I.filter (specMatch q)).take 10 ∧ (search q I).length ≤ 10 := by
  have hfilter : I.filter (matchPred (lower q)) = I.filter (specMatch q) :=
    List.filter_congr (fun d _ => matchPred_lower_eq_specMatch q d)
  constructor
  · unfold search; rw [hfilter]
  · unfold search; exact List.length_take_le 10 _

/-- C5: a whitespace-only (in particular empty) query makes `performSearch`
render the empty result list whatever the index is, and searching an empty
index renders the empty list for every query. -/
theorem performSearch_guards :
    (∀ (si : Option (List SearchDoc)) (q : List Char),
      q.all isJsWhitespace = true → performSearch si q = []) ∧
    (∀ q : List Char, performSearch (some []) q = []) := by
  constructor
  · intro si q hq
    cases si with
    | none => rfl
    | some dat =>
      have hd : q.dropWhile isJsWhitespace = [] :=
        List.dropWhile_eq_nil_iff.mpr (fun x hx => List.all_eq_true.mp hq x hx)
      have h1 : jsTrim q = [] := by unfold jsTrim; rw [hd]; rfl
      simp [performSearch, h1]
  · intro q
    simp [performSearch, search]

/-- Witness for C5 at concrete inputs: a space-only query against a one-document
index, and a non-trivial query against the empty index. -/
theorem performSearch_guards_witness :
    (([' '] : List Char).all isJsWhitespace = true) ∧
    performSearch (some [⟨['t'], some ['c'], ['p']⟩]) [' '] = [] ∧
    performSearch (some []) ['x'] = [] :=
  ⟨by decide,
   performSearch_guards.1 (some [⟨['t'], some ['c'], ['p']⟩]) [' '] (by decide),
   performSearch_guards.2 ['x']⟩

/-- C10: a document whose `content` field is `null`/`undefined` is matched by
its title alone (the containment test on `content` is skipped), and a document
with a present `content` string is matched by title or content; the embedded
matcher is a total function, so no query can make it throw. -/
theorem matchPred_null_content (q : List Char) (d : SearchDoc) :
    (d.content = none → matchPred q d = jsIncludes (lower d.title) q) ∧
    (∀ c, d.content = some c →
      matchPred q d = (jsIncludes (lower d.title) q || jsIncludes (lower c) q)) := by
  constructor
  · intro h; unfold matchPred; rw [h]; simp
  · intro c h; unfold matchPred; rw [h]
    cases c with
    | nil =>
      cases q with
      | nil => simp [jsIncludes_empty_needle, lower]
      | cons a as => simp [jsIncludes, indexOfSub, lower]
    | cons b bs => simp

/-- Witness for C10: a title-only document with `null` content matched via its
title, and a document with present content matched via its content. -/
theorem matchPred_null_content_witness :
    ((⟨['t'], none, ['p']⟩ : SearchDoc).content = none) ∧
    matchPred ['t'] ⟨['t'], none, ['p']⟩ = jsIncludes (lower ['t']) ['t'] ∧
    ((⟨['t'], some ['c'], ['p']⟩ : SearchDoc).content = some ['c']) ∧
    matchPred ['c'] ⟨['t'], some ['c'], ['p']⟩ =
      (jsIncludes (lower ['t']) ['c'] || jsIncludes (lower ['c']) ['c']) :=
  ⟨rfl, (matchPred_null_content ['t'] ⟨['t'], none, ['p']⟩).1 rfl, rfl,
   (matchPred_null_content ['c'] ⟨['t'], some ['c'], ['p']⟩).2 ['c'] rfl⟩

/-- C7: on a non-empty result list of size `n`, down moves to
`(selectedIndex + 1) mod n` (so the last index wraps to 0), up from
`selectedIndex ≤ 0` wraps to `n - 1` and otherwise decrements, and with no
results both directions leave `selectedIndex` unchanged. The hypothesis
`-1 ≤ si` is the selection invariant. -/
theorem navigateResults_spec (si : Int) (n : Nat) :
    (n ≠ 0 → -1 ≤ si →
      (navigateResults si n .down = (si + 1) % (n : Int) ∧
       navigateResults ((n : Int) - 1) n .down = 0 ∧
       (si ≤ 0 → navigateResults si n .up = (n : Int) - 1) ∧
       (0 < si → navigateResults si n .up = si - 1))) ∧
    (navigateResults si 0 .down = si ∧ navigateResults si 0 .up = si) := by
  constructor
  · intro hn hsi
    refine ⟨?_, ?_, ?_, ?_⟩
    · have e1 : navigateResults si n .down = Int.tmod (si + 1) (n : Int) := by
        simp [navigateResults, hn]
      rw [e1]
      exact Int.tmod_eq_emod (by omega) (by omega)
    · have e1 : navigateResults ((n : Int) - 1) n .down =
          Int.tmod ((n : Int) - 1 + 1) (n : Int) := by
        simp [navigateResults, hn]
      rw [e1]
      have e2 : (n : Int) - 1 + 1 = (n : Int) := by ring
      rw [e2, Int.tmod_eq_emod (by omega) (by omega), Int.emod_self]
    · intro hle
      simp [navigateResults, hn, hle]
    · intro hpos
      simp [navigateResults, hn, (show ¬ si ≤ 0 by omega)]
  · exact ⟨by simp [navigateResults], by simp [navigateResults]⟩

/-- Witness for C7 on a three-element result list: down from 2 wraps to 0,
up from 0 and up from 2 behave as stated, and with zero results down is a
no-op. -/
theorem navigateResults_spec_witness :
    ((3 : Nat) ≠ 0) ∧ (-1 ≤ (2 : Int)) ∧
    navigateResults 2 3 .down = ((2 : Int) + 1) % ((3 : Nat) : Int) ∧
    navigateResults (((3 : Nat) : Int) - 1) 3 .down = 0 ∧
    navigateResults 0 3 .up = ((3 : Nat) : Int) - 1 ∧
    navigateResults 2 3 .up = 2 - 1 ∧
    navigateResults 2 0 .down = 2 :=
  ⟨by decide, by decide,
   ((navigateResults_spec 2 3).1 (by decide) (by decide)).1,
   ((navigateResults_spec 2 3).1 (by decide) (by decide)).2.1,
   ((navigateResults_spec 0 3).1 (by decide) (by decide)).2.2.1 (by decide),
   ((navigateResults_spec 2 3).1 (by decide) (by decide)).2.2.2 (by decide),
   (navigateResults_spec 2 0).2.1⟩

/-- C8: the invariant `-1 ≤ selectedIndex < rendered.length` holds in the
initial state, is preserved by every event, hence holds after every run; and
`selectedIndex` is reset to `-1` by every input change (whatever the new
value) and by closing the modal. -/
theorem selection_invariant_and_reset :
    (∀ s e, selInv s → selInv (stepWidget s e)) ∧
    (∀ es, selInv (runWidget initWidget es)) ∧
    (∀ s v, (stepWidget s (WEvent.inputChange v)).selectedIndex = -1) ∧
    (∀ s, (stepWidget s WEvent.closeModal).selectedIndex = -1) :=
  ⟨stepWidget_selInv,
   fun es => runWidget_selInv es initWidget (by decide),
   fun _ _ => rfl,
   fun _ => rfl⟩

/-- Witness for C8: the invariant holds initially, after an arrow key in the
initial state, and after opening and typing; typing and closing reset the
selection to `-1`. -/
theorem selection_invariant_and_reset_witness :
    selInv initWidget ∧
    selInv (stepWidget initWidget (WEvent.arrow NavDirection.down)) ∧
    selInv (runWidget initWidget [WEvent.openModal, WEvent.inputChange ['a']]) ∧
    (stepWidget initWidget (WEvent.inputChange ['a'])).selectedIndex = -1 ∧
    (stepWidget initWidget WEvent.closeModal).selectedIndex = -1 :=
  ⟨by decide,
   selection_invariant_and_reset.1 initWidget (WEvent.arrow NavDirection.down)
     (by decide),
   selection_invariant_and_reset.2.1 [WEvent.openModal, WEvent.inputChange ['a']],
   selection_invariant_and_reset.2.2.1 initWidget ['a'],
   selection_invariant_and_reset.2.2.2 initWidget⟩

/-- C6 counterexample: two `open()` calls in succession, both before the
first fetch resolves, issue two network fetches — the loader guard
`if (searchIndex) return` does not memoize an in-flight load, refuting
"at most one fetch of /index.json ever occurs per page session". -/
theorem double_open_issues_two_fetches :
    ¬ ((runWidget initWidget [WEvent.openModal, WEvent.openModal]).fetchCount ≤ 1) := by
  decide

/-- C6 amended: a second `open()` after the first load has succeeded (the
index cache is populated) re-issues no fetch — the whole call is a no-op on
the loader state — while a call made when no load has completed issues a
fetch even if one is already in flight; in particular open, successful
resolution, open yields exactly one fetch. -/
theorem loader_memoized_after_success :
    (∀ s, s.searchIndex.isSome → stepWidget s WEvent.openModal =
        { s with modalOpen := true }) ∧
    (∀ s, s.searchIndex = none →
        (stepWidget s WEvent.openModal).fetchCount = s.fetchCount + 1) ∧
    (∀ dat, (runWidget initWidget
        [WEvent.openModal, WEvent.fetchOk dat, WEvent.openModal]).fetchCount = 1) := by
  refine ⟨fun s h => ?_, fun s h => ?_, fun dat => rfl⟩
  · simp only [stepWidget]
    rw [if_pos h]
  · simp only [stepWidget]
    rw [if_neg (by simp [h])]

/-- Witness for C6 amended: from the initial state one open issues one fetch;
after open and a successful resolution, a further open leaves the fetch count
at one and the loader state unchanged apart from the modal flag. -/
theorem loader_memoized_after_success_witness :
    (initWidget.searchIndex = none) ∧
    (stepWidget initWidget WEvent.openModal).fetchCount = initWidget.fetchCount + 1 ∧
    (runWidget initWidget
      [WEvent.openModal, WEvent.fetchOk [], WEvent.openModal]).fetchCount = 1 ∧
    ((runWidget initWidget [WEvent.openModal, WEvent.fetchOk []]).searchIndex.isSome = true) ∧
    stepWidget (runWidget initWidget [WEvent.openModal, WEvent.fetchOk []])
        WEvent.openModal =
      { runWidget initWidget [WEvent.openModal, WEvent.fetchOk []] with
          modalOpen := true } :=
  ⟨rfl,
   loader_memoized_after_success.2.1 initWidget rfl,
   loader_memoized_after_success.2.2 [],
   by decide,
   loader_memoized_after_success.1
     (runWidget initWidget [WEvent.openModal, WEvent.fetchOk []]) (by decide)⟩

/-- C9: when a fetch fails (network error or parse failure), the `catch`
leaves the index cache empty — the model of the loader is a total step
function, so the caller sees an ordinary resolution, never a rejection — and
any subsequent search renders the empty result list; in particular the trace
open-then-failure from the initial state ends with no index and empty search
results for every query. -/
theorem load_failure_degrades (s : WidgetState) (hs : s.searchIndex = none)
    (q : List Char) :
    (stepWidget s WEvent.fetchErr).searchIndex = none ∧
    performSearch (stepWidget s WEvent.fetchErr).searchIndex q = [] ∧
    (runWidget initWidget [WEvent.openModal, WEvent.fetchErr]).searchIndex = none ∧
    performSearch
      (runWidget initWidget [WEvent.openModal, WEvent.fetchErr]).searchIndex q = [] := by
  have h1 : (stepWidget s WEvent.fetchErr).searchIndex = none := by
    simp only [stepWidget]
    split
    · exact hs
    · exact hs
  refine ⟨h1, ?_, rfl, rfl⟩
  rw [h1]
  rfl

/-- Witness for C9 at the initial state and a concrete query. -/
theorem load_failure_degrades_witness :
    (initWidget.searchIndex = none) ∧
    (stepWidget initWidget WEvent.fetchErr).searchIndex = none ∧
    performSearch (stepWidget initWidget WEvent.fetchErr).searchIndex ['x'] = [] ∧
    (runWidget initWidget [WEvent.openModal, WEvent.fetchErr]).searchIndex = none ∧
    performSearch
      (runWidget initWidget [WEvent.openModal, WEvent.fetchErr]).searchIndex ['x'] = [] :=
  ⟨rfl,
   (load_failure_degrades initWidget rfl ['x']).1,
   (load_failure_degrades initWidget rfl ['x']).2.1,
   (load_failure_degrades initWidget rfl ['x']).2.2.1,
   (load_failure_degrades initWidget rfl ['x']).2.2.2⟩

/-- C1: the failing input made concrete. The query `a.c` occurs literally in
the content `a.c abc`, so the snippet is the whole content; but because the
query is used unescaped as a regex pattern, the highlighter also wraps the
non-literal occurrence `abc` (matched by the `.` wildcard) in markers, instead
of highlighting only the literal occurrence. -/
theorem unescaped_query_highlights_pattern :
    getSnippet (some ['a', '.', 'c', ' ', 'a', 'b', 'c']) ['a', '.', 'c'] 120 =
      markOpen ++ ['a', '.', 'c'] ++ markClose ++ [' '] ++
        markOpen ++ ['a', 'b', 'c'] ++ markClose ∧
    getSnippet (some ['a', '.', 'c', ' ', 'a', 'b', 'c']) ['a', '.', 'c'] 120 ≠
      markOpen ++ ['a', '.', 'c'] ++ markClose ++ [' ', 'a', 'b', 'c'] := by
  exact ⟨by decide, by decide⟩

/-- C3 counterexample: for content `abc` (3 characters, far below
`maxLength = 120`) the claim demands the untruncated content back with no
ellipsis, both for a query that does not occur (`z`) and for the empty query;
the code instead appends `...` unconditionally in the first case and returns
the empty string in the second. -/
theorem snippet_no_match_cex :
    ¬ (getSnippet (some ['a', 'b', 'c']) ['z'] 120 = ['a', 'b', 'c']) ∧
    ¬ (getSnippet (some ['a', 'b', 'c']) [] 120 = ['a', 'b', 'c']) := by
  exact ⟨by decide, by decide⟩

/-- C3 amended: if the query is empty, or the content is empty or
`null`/`undefined`, `getSnippet` returns the empty string; if both are
non-empty and the query does not occur case-insensitively in the content, it
returns the first `maxLength` characters of the content with `...` appended
unconditionally — also when the content was not truncated — and adds no
highlight markers. -/
theorem snippet_no_match (c q : List Char) (mL : Nat) :
    getSnippet (some c) [] mL = [] ∧
    getSnippet none q mL = [] ∧
    (indexOfSub (lower q) (lower c) = none →
      getSnippet (some c) q mL = if c.isEmpty then [] else c.take mL ++ ellipsis) := by
  refine ⟨by simp [getSnippet], rfl, fun h => ?_⟩
  by_cases hc : c = []
  · subst hc
    simp [getSnippet]
  · have hq : q ≠ [] := by
      rintro rfl
      rw [show lower [] = [] from rfl, indexOfSub_nil] at h
      exact Option.noConfusion h
    have hce : c.isEmpty = false := by simp [List.isEmpty_iff, hc]
    have hqe : q.isEmpty = false := by simp [List.isEmpty_iff, hq]
    simp [getSnippet, hce, hqe, h]

/-- Witness for C3 amended at content `abc`, query `z`, default length. -/
theorem snippet_no_match_witness :
    (indexOfSub (lower ['z']) (lower ['a', 'b', 'c']) = none) ∧
    getSnippet (some ['a', 'b', 'c']) [] 120 = [] ∧
    getSnippet none ['z'] 120 = [] ∧
    getSnippet (some ['a', 'b', 'c']) ['z'] 120 =
      (if (['a', 'b', 'c'] : List Char).isEmpty then []
       else (['a', 'b', 'c'] : List Char).take 120 ++ ellipsis) :=
  ⟨by decide,
   (snippet_no_match ['a', 'b', 'c'] ['z'] 120).1,
   (snippet_no_match ['a', 'b', 'c'] ['z'] 120).2.1,
   (snippet_no_match ['a', 'b', 'c'] ['z'] 120).2.2 (by decide)⟩

/-- C4: when the lowercased query is first found at offset `i` of the
lowercased content, the snippet is the window of the original content from
`max(0, i - 40)` to `min(len(content), i + len(query) + 80)`, with a leading
ellipsis iff the window start is not 0 and a trailing ellipsis iff the window
end is not `len(content)`, the whole passed through the highlighter. The
bounds are stated with the integer `max` of the spec; `Int.toNat` carries it
back to the natural-number slice. -/
theorem snippet_window_spec (c q : List Char) (i : Nat)
    (hc : c ≠ []) (hq : q ≠ [])
    (hfind : indexOfSub (lower q) (lower c) = some i) :
    getSnippet (some c) q 120 =
      highlight q
        ((if (max 0 ((i : Int) - 40)).toNat ≠ 0 then ellipsis else []) ++
         ((c.drop (max 0 ((i : Int) - 40)).toNat).take
            (min c.length (i + q.length + 80) - (max 0 ((i : Int) - 40)).toNat)) ++
         (if min c.length (i + q.length + 80) ≠ c.length then ellipsis else [])) := by
  have hstart : (max 0 ((i : Int) - 40)).toNat = i - 40 := by omega
  have hce : c.isEmpty = false := by simp [List.isEmpty_iff, hc]
  have hqe : q.isEmpty = false := by simp [List.isEmpty_iff, hq]
  rw [hstart]
  simp only [getSnippet, hce, hqe, Bool.or_self, Bool.false_eq_true, if_false, hfind]
  congr 1
  have hle : min c.length (i + q.length + 80) ≤ c.length := min_le_left _ _
  have e1 : (i - 40 ≠ 0) ↔ (0 < i - 40) := by omega
  have e2 : (min c.length (i + q.length + 80) ≠ c.length) ↔
      (min c.length (i + q.length + 80) < c.length) := by omega
  simp only [e1, e2]
  split <;> split <;> simp [List.append_assoc]

set_option maxRecDepth 8000 in
/-- Witness for C4: content of length 500 with the query found at offset 200
(scenario B) — the window is `[160, 281)` and both ellipses are present. -/
theorem snippet_window_spec_witness :
    c500.length = 500 ∧
    (c500 ≠ []) ∧ ((['b'] : List Char) ≠ []) ∧
    indexOfSub (lower ['b']) (lower c500) = some 200 ∧
    getSnippet (some c500) ['b'] 120 =
      highlight ['b']
        ((if (max 0 ((200 : Int) - 40)).toNat ≠ 0 then ellipsis else []) ++
         ((c500.drop (max 0 ((200 : Int) - 40)).toNat).take
            (min c500.length (200 + (['b'] : List Char).length + 80) -
              (max 0 ((200 : Int) - 40)).toNat)) ++
         (if min c500.length (200 + (['b'] : List Char).length + 80) ≠ c500.length
          then ellipsis else [])) :=
  ⟨by decide, by decide, by decide, by decide,
   snippet_window_spec c500 ['b'] 200 (by decide) (by decide) (by decide)⟩

end VD
